import Mathlib

/-!
Verification development for the flyway-rs repository.

The development shallowly embeds the three subsystems the claims talk
about:

* the SQL changelog tokenizer of `flyway-sql-changelog/src/lib.rs`
  (`SqlStatementIterator` and its byte-driven state machine);
* the migration orchestrator `MigrationRunner::migrate` of
  `flyway/src/lib.rs`, parametrised over an abstract driver exactly as
  the Rust code is parametrised over the `MigrationStateManager` /
  `MigrationExecutor` traits;
* the reference driver `RbatisMigrationDriver` of
  `flyway-rbatis/src/lib.rs` (non-TDengine code paths), with the
  database condensed to the migration-state rows, a transaction flag and
  a log of the SQL statements submitted for execution.

Rust strings are represented by their byte sequences (`List Nat`,
each entry < 256); `u32` values by `Nat` guarded with explicit `2 ^ 32`
bounds where the source can overflow.  Fallible Rust code returns
`Except`; the `expect`/`unwrap` panics reachable in `migrate` are an
explicit `panicked` outcome.
-/

namespace Flyway

/-! ## Byte constants (flyway-sql-changelog/src/lib.rs lines 11-18) -/

def SINGLE_QUOTE1 : Nat := 39   -- byte of the single-quote character
def SINGLE_QUOTE2 : Nat := 96   -- byte of the backtick character
def DOUBLE_QUOTE : Nat := 34    -- byte of the double-quote character
def SEMICOLON : Nat := 59
def BACKSLASH : Nat := 92
def MINUS : Nat := 45
def LINEFEED : Nat := 10

/-! ## UTF-8 (model of Rust `String::from_utf8` / `str` semantics)

`utf8Decode` returns the scalar values of a byte sequence when it is
valid UTF-8 (same validity rules as Rust: no overlong forms, no
surrogates, max U+10FFFF), and `none` otherwise. -/

def isCont (b : Nat) : Bool := 0x80 ≤ b && b ≤ 0xBF

def utf8Decode : List Nat → Option (List Nat)
  | [] => some []
  | b :: rest =>
    if b ≤ 0x7F then
      match utf8Decode rest with
      | some cps => some (b :: cps)
      | none => none
    else if 0xC2 ≤ b && b ≤ 0xDF then
      match rest with
      | b2 :: rest2 =>
        if isCont b2 then
          match utf8Decode rest2 with
          | some cps => some (((b - 0xC0) * 64 + (b2 - 0x80)) :: cps)
          | none => none
        else none
      | [] => none
    else if 0xE0 ≤ b && b ≤ 0xEF then
      match rest with
      | b2 :: b3 :: rest3 =>
        let lo2 : Nat := if b = 0xE0 then 0xA0 else 0x80
        let hi2 : Nat := if b = 0xED then 0x9F else 0xBF
        if lo2 ≤ b2 && b2 ≤ hi2 && isCont b3 then
          match utf8Decode rest3 with
          | some cps =>
            some (((b - 0xE0) * 4096 + (b2 - 0x80) * 64 + (b3 - 0x80)) :: cps)
          | none => none
        else none
      | _ => none
    else if 0xF0 ≤ b && b ≤ 0xF4 then
      match rest with
      | b2 :: b3 :: b4 :: rest4 =>
        let lo2 : Nat := if b = 0xF0 then 0x90 else 0x80
        let hi2 : Nat := if b = 0xF4 then 0x8F else 0xBF
        if lo2 ≤ b2 && b2 ≤ hi2 && isCont b3 && isCont b4 then
          match utf8Decode rest4 with
          | some cps =>
            some (((b - 0xF0) * 262144 + (b2 - 0x80) * 4096 +
                   (b3 - 0x80) * 64 + (b4 - 0x80)) :: cps)
          | none => none
        else none
      | _ => none
    else none

/-- Encode a list of Unicode scalar values back to UTF-8 bytes (inverse
of `utf8Decode`, used where Rust pushes `str::as_bytes` of a decoded
string). -/
def utf8EncodeChar (c : Nat) : List Nat :=
  if c ≤ 0x7F then [c]
  else if c ≤ 0x7FF then [0xC0 + c / 64, 0x80 + c % 64]
  else if c ≤ 0xFFFF then [0xE0 + c / 4096, 0x80 + c / 64 % 64, 0x80 + c % 64]
  else [0xF0 + c / 262144, 0x80 + c / 4096 % 64, 0x80 + c / 64 % 64, 0x80 + c % 64]

def utf8Encode (cps : List Nat) : List Nat := cps.flatMap utf8EncodeChar

/-- Whitespace predicate of Rust `char::is_whitespace` (the Unicode
White_Space property), on scalar values. -/
def isRustWhitespace (c : Nat) : Bool :=
  (9 ≤ c && c ≤ 13) || c = 32 || c = 0x85 || c = 0xA0 || c = 0x1680 ||
  (0x2000 ≤ c && c ≤ 0x200A) || c = 0x2028 || c = 0x2029 ||
  c = 0x202F || c = 0x205F || c = 0x3000

/-- Model of Rust `str::trim_start` on a decoded string. -/
def trimStartWs (cps : List Nat) : List Nat := cps.dropWhile isRustWhitespace

/-- Model of Rust `str::trim` on a decoded string. -/
def trimWs (cps : List Nat) : List Nat :=
  ((cps.dropWhile isRustWhitespace).reverse.dropWhile isRustWhitespace).reverse

/-- Scalar values of an ASCII Lean string; for ASCII text these
coincide with the UTF-8 bytes, so the same helper serves as byte string
and as decoded string. -/
def strCodes (s : String) : List Nat := s.toList.map Char.toNat

/-! ## Tokenizer data types (flyway-sql-changelog/src/lib.rs) -/

/-- Internal state of the `SqlStatementIterator`
(enum `SqlStatementIteratorState`, lines 130-146). -/
inductive SqlStatementIteratorState where
  | Normal : SqlStatementIteratorState
  | Quoted : Nat → SqlStatementIteratorState
  | Escaped : Nat → SqlStatementIteratorState
  | Comment : SqlStatementIteratorState → List Nat → SqlStatementIteratorState
deriving DecidableEq

/-- The annotation of an SQL statement (struct `SqlStatementAnnotation`,
lines 153-157). -/
structure SqlStatementAnnotation where
  may_fail : Option Bool
deriving DecidableEq

/-- A single, optionally annotated, SQL statement (struct
`SqlStatement`, lines 160-166).  `statement` holds the scalar values of
the statement text. -/
structure SqlStatement where
  annotation : Option SqlStatementAnnotation
  statement : List Nat
deriving DecidableEq

/-- Model of `serde_yaml::from_slice::<SqlStatementAnnotation>` from an
external crate, restricted to the annotation payloads exercised in this
development: the exact payload `may_fail: true` (resp. `false`) parses
to the corresponding annotation, anything else is treated as a parse
failure (which the source turns into `None` via `.ok()`). -/
def parseAnnotation (bytes : List Nat) : Option SqlStatementAnnotation :=
  if bytes = strCodes "may_fail: true" then some ⟨some true⟩
  else if bytes = strCodes "may_fail: false" then some ⟨some false⟩
  else none

/-- The comment-flush block repeated verbatim in the quote, semicolon,
backslash and catch-all arms of `SqlStatementIterator::next` (e.g.
lines 360-371): with fewer than two buffered bytes the comment was a
false positive, its bytes are flushed into the statement and the state
reverts (the driving byte is not pushed); otherwise the byte is
appended to the comment buffer. -/
def commentStep (prev : SqlStatementIteratorState) (comment : List Nat)
    (stmt : List Nat) (c : Nat) :
    SqlStatementIteratorState × List Nat :=
  if comment.length < 2 then (prev, stmt ++ comment)
  else (.Comment prev (comment ++ [c]), stmt)

/-- Scalar values of the fallback string used when a comment is not
valid UTF-8 (line 308). -/
def nonUtf8Fallback : List Nat := strCodes "(non-utf8)"

/-- Scalar values of the annotation marker (line 312). -/
def annotationMarker : List Nat := strCodes "--! "

/-- One iteration of the `while` loop body of
`SqlStatementIterator::next` (lines 303-502), processing the byte
`c` in state `st` with statement buffer `stmt` and annotation buffer
`ann`.  Returns `(broke, state, statement, annotation)` where `broke`
records whether the `break` in the semicolon arm fired. -/
def processByte (st : SqlStatementIteratorState) (stmt ann : List Nat)
    (c : Nat) : Bool × SqlStatementIteratorState × List Nat × List Nat :=
  if c = LINEFEED then
    match st with
    | .Comment prev comment =>
      -- String::from_utf8 with the "(non-utf8)" fallback, trim_start,
      -- then the "--! " marker test; the payload bytes after the
      -- four-byte marker are appended to the annotation buffer.
      let commentString : List Nat :=
        match utf8Decode comment with
        | some cps => cps
        | none => nonUtf8Fallback
      let trimmed := trimStartWs commentString
      if annotationMarker.isPrefixOf trimmed then
        (false, prev, stmt, ann ++ utf8Encode (trimmed.drop 4))
      else
        (false, prev, stmt, ann)
    | _ => (false, st, stmt ++ [c], ann)
  else if c = MINUS then
    match st with
    | .Normal => (false, .Comment .Normal [MINUS], stmt, ann)
    | .Comment prev comment => (false, .Comment prev (comment ++ [c]), stmt, ann)
    | _ => (false, st, stmt ++ [c], ann)
  else if c = SINGLE_QUOTE1 then
    match st with
    | .Normal => (false, .Quoted SINGLE_QUOTE1, stmt ++ [c], ann)
    | .Escaped q => (false, .Quoted q, stmt ++ [c], ann)
    | .Quoted q =>
      -- the byte is pushed only when it matches the stored quote
      if c = q then (false, .Normal, stmt ++ [c], ann)
      else (false, .Quoted q, stmt, ann)
    | .Comment prev comment =>
      let (st2, stmt2) := commentStep prev comment stmt c
      (false, st2, stmt2, ann)
  else if c = SINGLE_QUOTE2 then
    match st with
    | .Normal => (false, .Quoted SINGLE_QUOTE1, stmt ++ [c], ann)  -- line 378
    | .Escaped q => (false, .Quoted q, stmt ++ [c], ann)
    | .Quoted q =>
      -- the byte is pushed unconditionally, then compared with the quote
      (false, if c = q then .Normal else .Quoted q, stmt ++ [c], ann)
    | .Comment prev comment =>
      let (st2, stmt2) := commentStep prev comment stmt c
      (false, st2, stmt2, ann)
  else if c = DOUBLE_QUOTE then
    match st with
    | .Normal => (false, .Quoted SINGLE_QUOTE1, stmt ++ [c], ann)  -- line 408
    | .Escaped q => (false, .Quoted q, stmt ++ [c], ann)
    | .Quoted q =>
      (false, if c = q then .Normal else .Quoted q, stmt ++ [c], ann)
    | .Comment prev comment =>
      let (st2, stmt2) := commentStep prev comment stmt c
      (false, st2, stmt2, ann)
  else if c = SEMICOLON then
    match st with
    | .Quoted q => (false, .Quoted q, stmt ++ [c], ann)
    | .Comment prev comment =>
      let (st2, stmt2) := commentStep prev comment stmt c
      (false, st2, stmt2, ann)
    | _ => (true, st, stmt, ann)  -- `break` (also from .Escaped)
  else if c = BACKSLASH then
    match st with
    | .Quoted q => (false, .Escaped q, stmt ++ [c], ann)
    | .Escaped q => (false, .Quoted q, stmt ++ [c], ann)
    | .Comment prev comment =>
      let (st2, stmt2) := commentStep prev comment stmt c
      (false, st2, stmt2, ann)
    | _ => (false, st, stmt ++ [c], ann)
  else
    match st with
    | .Comment prev comment =>
      let (st2, stmt2) := commentStep prev comment stmt c
      (false, st2, stmt2, ann)
    | _ => (false, st, stmt ++ [c], ann)

/-- The `while ch.is_some()` loop of `SqlStatementIterator::next`
(lines 294-503).  The Rust loop keeps a one-byte lookahead: `ch` holds
the byte about to be processed and the next byte is fetched *before*
the current one is handled, so when the semicolon arm breaks, the
fetched lookahead byte has already been consumed and is discarded.
Arguments: state, statement buffer, annotation buffer, lookahead byte,
bytes after the lookahead.  Returns the final state, the two buffers
and the unread remainder of the content. -/
def nextLoop (st : SqlStatementIteratorState) (stmt ann : List Nat) :
    Option Nat → List Nat →
    SqlStatementIteratorState × List Nat × List Nat × List Nat
  | none, rest => (st, stmt, ann, rest)
  | some c, [] =>
    let (_, st2, stmt2, ann2) := processByte st stmt ann c
    (st2, stmt2, ann2, [])
  | some c, b :: rest =>
    let (broke, st2, stmt2, ann2) := processByte st stmt ann c
    if broke then (st2, stmt2, ann2, rest)
    else nextLoop st2 stmt2 ann2 (some b) rest

/-- An iterator for a `ChangelogFile` (struct `SqlStatementIterator`,
lines 170-177): the `content`/`position` pair is represented by the
remaining suffix `content[position..]` of the content bytes, together
with the persistent state. -/
structure SqlStatementIterator where
  remaining : List Nat
  state : SqlStatementIteratorState
deriving DecidableEq

/-- Raw result of one `next` call before statement emission: the filled
statement and annotation buffers, the persisted state and the unread
remainder. -/
def nextRaw (it : SqlStatementIterator) :
    List Nat × List Nat × SqlStatementIteratorState × List Nat :=
  let (st2, stmt, ann, rest) :=
    nextLoop it.state [] [] it.remaining.head? it.remaining.tail
  (stmt, ann, st2, rest)

/-- Statement emission at the end of `SqlStatementIterator::next`
(lines 512-544): a non-empty byte buffer is decoded as UTF-8 (decoding
failure yields `None`), trimmed, dropped if empty after trimming, and
paired with the parsed annotation (parse failure is soft). -/
def emitStatement (stmt ann : List Nat) : Option SqlStatement :=
  if stmt.length > 0 then
    match utf8Decode stmt with
    | none => none
    | some cps =>
      let value := trimWs cps
      if value.length > 0 then
        some { annotation := if ann.length > 0 then parseAnnotation ann else none
               statement := value }
      else none
  else none

/-- `SqlStatementIterator::next` (lines 287-545): returns the emitted
statement (if any) and the advanced iterator. -/
def nextStatement (it : SqlStatementIterator) :
    Option SqlStatement × SqlStatementIterator :=
  let (stmt, ann, st2, rest) := nextRaw it
  (emitStatement stmt ann, ⟨rest, st2⟩)

/-- Repeatedly call `nextStatement` until it yields `none`, exactly as
a Rust `for` loop consumes the `Iterator`.  The fuel argument only
serves termination: every yielded statement consumes at least one byte
of input, so `remaining.length + 1` is always enough. -/
def statementsFrom : Nat → SqlStatementIterator → List SqlStatement
  | 0, _ => []
  | fuel + 1, it =>
    match nextStatement it with
    | (none, _) => []
    | (some s, it2) => s :: statementsFrom fuel it2

/-- All statements yielded for a content byte string, starting from the
initial iterator (`SqlStatementIterator::from_str`). -/
def statements (content : List Nat) : List SqlStatement :=
  statementsFrom (content.length + 1) ⟨content, .Normal⟩

/-! ## Changelog files and version ordering
(flyway-sql-changelog/src/lib.rs lines 119-126 and 243-247) -/

/-- A changelog file: the version string and the raw SQL content, both
as byte sequences (struct `ChangelogFile`). -/
structure ChangelogFile where
  version : List Nat
  content : List Nat
deriving DecidableEq

/-- Lexicographic comparison of byte slices: the model of Rust
`<[u8] as Ord>::cmp`, which `impl Ord for ChangelogFile` (lines
243-247) applies to `version.as_bytes()`, and which `&str::cmp` in
`migrate` (line 298) equals as well. -/
def bytesCmp : List Nat → List Nat → Ordering
  | [], [] => .eq
  | [], _ :: _ => .lt
  | _ :: _, [] => .gt
  | a :: as_, b :: bs =>
    if a < b then .lt
    else if b < a then .gt
    else bytesCmp as_ bs

/-- Model of Rust `str::parse::<u32>`: an optional leading plus sign,
then one or more decimal digits, value below `2 ^ 32`; anything else is
a parse error. -/
def parseU32 (s : List Nat) : Option Nat :=
  let digits := match s with
    | 43 :: rest => rest
    | _ => s
  if digits ≠ [] ∧ digits.all (fun c => 48 ≤ c ∧ c ≤ 57) then
    let v := digits.foldl (fun acc c => acc * 10 + (c - 48)) 0
    if v < 2 ^ 32 then some v else none
  else none

/-- Insert a changelog into an already sorted list, before the first
entry whose version does not compare `Ordering.gt` with it. -/
def insertByVersion (x : ChangelogFile) :
    List ChangelogFile → List ChangelogFile
  | [] => [x]
  | y :: ys =>
    if bytesCmp x.version y.version = .gt then y :: insertByVersion x ys
    else x :: y :: ys

/-- Stable sort by the comparator `a.version().cmp(b.version())`, the
model of `migrations.sort_by(|a, b| a.version().cmp(b.version()))`
(flyway/src/lib.rs line 298).  Rust `sort_by` is a stable sort, and all
stable sorts by the same total comparator agree, so this insertion sort
computes the same list. -/
def sortByVersion : List ChangelogFile → List ChangelogFile
  | [] => []
  | x :: xs => insertByVersion x (sortByVersion xs)

/-! ## Error taxonomy (flyway/src/lib.rs lines 10-91)

The boxed `dyn Error` causes are condensed to an `Option Nat` tag: the
claims only need to distinguish presence and identity of a cause. -/

/-- Kinds of errors produced by the migration code
(enum `MigrationsErrorKind`). -/
inductive MigrationsErrorKind where
  | MigrationDatabaseStepFailed : Option Nat → MigrationsErrorKind
  | MigrationDatabaseFailed : Option Nat → MigrationsErrorKind
  | MigrationSetupFailed : Option Nat → MigrationsErrorKind
  | MigrationVersioningFailed : Option Nat → MigrationsErrorKind
  | CustomErrorMessage : List Nat → Option Nat → MigrationsErrorKind
deriving DecidableEq

/-- Represents errors produced by migration code (struct
`MigrationsError`). -/
structure MigrationsError where
  kind : MigrationsErrorKind
  last_successful_version : Option Nat
deriving DecidableEq

/-- Constructor `MigrationsError::migration_database_step_failed`. -/
def migration_database_step_failed (lsv : Option Nat) (cause : Option Nat) :
    MigrationsError :=
  { kind := .MigrationDatabaseStepFailed cause, last_successful_version := lsv }

/-- Constructor `MigrationsError::migration_database_failed`. -/
def migration_database_failed (lsv : Option Nat) (cause : Option Nat) :
    MigrationsError :=
  { kind := .MigrationDatabaseFailed cause, last_successful_version := lsv }

/-- Constructor `MigrationsError::migration_setup_failed`; note the
source fixes `last_successful_version` to `None`. -/
def migration_setup_failed (cause : Option Nat) : MigrationsError :=
  { kind := .MigrationSetupFailed cause, last_successful_version := none }

/-- Constructor `MigrationsError::migration_versioning_failed`; note
the source fixes `last_successful_version` to `None`. -/
def migration_versioning_failed (cause : Option Nat) : MigrationsError :=
  { kind := .MigrationVersioningFailed cause, last_successful_version := none }

/-- Status of a migration (enum `MigrationStatus`,
flyway/src/lib.rs lines 175-185). -/
inductive MigrationStatus where
  | InProgress : MigrationStatus
  | Deployed : MigrationStatus
deriving DecidableEq

/-- The minimal information for a migration version (struct
`MigrationState`, flyway/src/lib.rs lines 189-195). -/
structure MigrationState where
  version : Nat
  status : MigrationStatus
deriving DecidableEq

/-! ## The orchestrator (flyway/src/lib.rs lines 265-327)

`MigrationRunner::migrate` is generic over a `MigrationStateManager`
and a `MigrationExecutor`; the embedding is parametrised by a `Driver`
record over an abstract database state `σ`.  Every operation returns
the new state together with its `Result`, mirroring that the Rust
methods mutate the database no matter whether they return `Ok` or
`Err`. -/

/-- The combined `MigrationStateManager` / `MigrationExecutor`
interface used by `migrate`. -/
structure Driver (σ : Type) where
  prepare : σ → σ × Except MigrationsError Unit
  highestVersion : σ → σ × Except MigrationsError (Option MigrationState)
  beginVersion : ChangelogFile → σ → σ × Except MigrationsError Unit
  finishVersion : ChangelogFile → σ → σ × Except MigrationsError Unit
  beginTransaction : σ → σ × Except MigrationsError Unit
  executeChangelogFile : ChangelogFile → σ → σ × Except MigrationsError Unit
  commitTransaction : σ → σ × Except MigrationsError Unit
  rollbackTransaction : σ → σ × Except MigrationsError Unit

/-- Outcome of a `migrate` call: `Ok`, `Err`, or a Rust panic raised by
the `expect`/`unwrap` on version parsing. -/
inductive MigrateOutcome (σ : Type) where
  | ok : σ → Option Nat → MigrateOutcome σ
  | error : σ → MigrationsError → MigrateOutcome σ
  | panicked : MigrateOutcome σ
deriving DecidableEq

/-- The `for changelog in migrations` loop of `migrate` (lines
302-324): parse the version (`unwrap` panics on failure, unreachable
after the filter), `begin_version`, `begin_transaction`,
`execute_changelog_file`; on success `commit_transaction`,
`finish_version` and update the local high-water mark; on failure call
`rollback_transaction`, discard its own result via `.or(Ok(()))`, and
return the original error. -/
def migrateLoop {σ : Type} (D : Driver σ) :
    List ChangelogFile → Option Nat → σ → MigrateOutcome σ
  | [], hv, s => .ok s hv
  | cl :: rest, _hv, s =>
    match parseU32 cl.version with
    | none => .panicked
    | some version =>
      match D.beginVersion cl s with
      | (s1, .error e) => .error s1 e
      | (s1, .ok _) =>
        match D.beginTransaction s1 with
        | (s2, .error e) => .error s2 e
        | (s2, .ok _) =>
          match D.executeChangelogFile cl s2 with
          | (s3, .ok _) =>
            match D.commitTransaction s3 with
            | (s4, .error e) => .error s4 e
            | (s4, .ok _) =>
              match D.finishVersion cl s4 with
              | (s5, .error e) => .error s5 e
              | (s5, .ok _) => migrateLoop D rest (some version) s5
          | (s3, .error e) =>
            -- rollback; its own failure is swallowed by `.or(Ok(())).unwrap()`
            let s4 := (D.rollbackTransaction s3).1
            .error s4 e
  -- the `hv` parameter is threaded for the final `Ok(current_highest_version)`

/-- `MigrationRunner::migrate` (lines 282-327): prepare, read the
high-water mark, filter the catalog to versions strictly above it
(the filter closure calls `parse().expect(..)` on *every* catalog
entry, so any unparsable version panics), sort by the version-string
comparator, and run the loop. -/
def migrate {σ : Type} (D : Driver σ) (changelogs : List ChangelogFile)
    (s0 : σ) : MigrateOutcome σ :=
  match D.prepare s0 with
  | (s1, .error e) => .error s1 e
  | (s1, .ok _) =>
    match D.highestVersion s1 with
    | (s2, .error e) => .error s2 e
    | (s2, .ok hvState) =>
      let hv := hvState.map (fun st => st.version)
      if changelogs.all (fun m => (parseU32 m.version).isSome) then
        let pending := changelogs.filter (fun m =>
          match hv with
          | some h => decide ((parseU32 m.version).getD 0 > h)
          | none => true)
        migrateLoop D (sortByVersion pending) hv s2
      else .panicked

/-! ## The rbatis reference driver (flyway-rbatis/src/lib.rs)

Non-TDengine code paths of `RbatisMigrationDriver`, over a database
state holding the rows of the migrations table (`version` is an
`INTEGER PRIMARY KEY`, so at most one row per version), the
one-transaction-at-a-time flag of the executor, and — as pure
instrumentation — the list of SQL statements submitted through
`tx.exec`.  Statement failures of the underlying database are an
oracle `execFails` on the statement text; connection acquisition,
commits and rollbacks of the library itself are taken to succeed. -/

/-- The migrations table plus executor state of
`RbatisMigrationDriver`. -/
structure RbState where
  rows : List (Nat × MigrationStatus)
  txOpen : Bool
  execLog : List (List Nat)
deriving DecidableEq

/-- The versions of rows with `status='deployed'`. -/
def deployedVersions (rows : List (Nat × MigrationStatus)) : List Nat :=
  (rows.filter (fun r => r.2 = .Deployed)).map (fun r => r.1)

/-- Result of `SELECT MAX(version) ... WHERE status='deployed'`
(lines 160-163): `none` on an empty deployed set. -/
def maxDeployed (rows : List (Nat × MigrationStatus)) : Option Nat :=
  match deployedVersions rows with
  | [] => none
  | v :: vs => some (vs.foldl Nat.max v)

/-- `RbatisMigrationDriver::prepare` (lines 86-133): `CREATE TABLE IF
NOT EXISTS` leaves existing rows untouched. -/
def rbPrepare (s : RbState) : RbState × Except MigrationsError Unit :=
  (s, .ok ())

/-- `RbatisMigrationDriver::highest_version` (lines 154-171). -/
def rbHighestVersion (s : RbState) :
    RbState × Except MigrationsError (Option MigrationState) :=
  (s, .ok ((maxDeployed s.rows).map (fun v => ⟨v, .Deployed⟩)))

/-- `RbatisMigrationDriver::begin_version`, non-TDengine path (lines
237-255): `UPDATE ... SET status='in_progress' WHERE version=<v>`,
and when no row was affected, insert an `in_progress` row.  The version
string is interpolated unquoted into the SQL, so a version that is not
an integer literal is a SQL error, surfaced as a versioning failure. -/
def rbBeginVersion (cl : ChangelogFile) (s : RbState) :
    RbState × Except MigrationsError Unit :=
  match parseU32 cl.version with
  | none => (s, .error (migration_versioning_failed (some 0)))
  | some v =>
    if s.rows.any (fun r => r.1 = v) then
      ({ s with rows := s.rows.map (fun r =>
           if r.1 = v then (v, .InProgress) else r) }, .ok ())
    else
      ({ s with rows := s.rows ++ [(v, .InProgress)] }, .ok ())

/-- `RbatisMigrationDriver::finish_version`, non-TDengine path (lines
299-317): `UPDATE ... SET status='deployed' WHERE version=<v>`, and
when no row was affected, the defensive insert (which the source
inserts with status `'in_progress'`). -/
def rbFinishVersion (cl : ChangelogFile) (s : RbState) :
    RbState × Except MigrationsError Unit :=
  match parseU32 cl.version with
  | none => (s, .error (migration_versioning_failed (some 0)))
  | some v =>
    if s.rows.any (fun r => r.1 = v) then
      ({ s with rows := s.rows.map (fun r =>
           if r.1 = v then (v, .Deployed) else r) }, .ok ())
    else
      ({ s with rows := s.rows ++ [(v, .InProgress)] }, .ok ())

/-- `RbatisMigrationDriver::begin_transaction` (lines 324-343): error
when a transaction is already active, else open one. -/
def rbBeginTransaction (s : RbState) : RbState × Except MigrationsError Unit :=
  if s.txOpen then (s, .error (migration_database_failed none none))
  else ({ s with txOpen := true }, .ok ())

/-- The statement loop of
`RbatisMigrationDriver::execute_changelog_file` (lines 350-357): each
statement text is submitted via `tx.exec`; a database failure is
returned as `migration_versioning_failed` with the cause attached,
ending the iteration.  The log records every submitted statement. -/
def execStatements (execFails : List Nat → Bool) :
    List SqlStatement → List (List Nat) →
    List (List Nat) × Except MigrationsError Unit
  | [], log => (log, .ok ())
  | stmt :: rest, log =>
    let log2 := log ++ [stmt.statement]
    if execFails stmt.statement then
      (log2, .error (migration_versioning_failed (some 1)))
    else execStatements execFails rest log2

/-- `RbatisMigrationDriver::execute_changelog_file` (lines 345-363):
error when no transaction is active, else iterate over
`changelog_file.iter()`. -/
def rbExecuteChangelogFile (execFails : List Nat → Bool)
    (cl : ChangelogFile) (s : RbState) :
    RbState × Except MigrationsError Unit :=
  if s.txOpen then
    let (log2, r) := execStatements execFails (statements cl.content) s.execLog
    ({ s with execLog := log2 }, r)
  else (s, .error (migration_database_failed none none))

/-- `RbatisMigrationDriver::commit_transaction` (lines 365-382). -/
def rbCommitTransaction (s : RbState) : RbState × Except MigrationsError Unit :=
  if s.txOpen then ({ s with txOpen := false }, .ok ())
  else (s, .error (migration_database_failed none none))

/-- `RbatisMigrationDriver::rollback_transaction` (lines 384-401). -/
def rbRollbackTransaction (s : RbState) :
    RbState × Except MigrationsError Unit :=
  if s.txOpen then ({ s with txOpen := false }, .ok ())
  else (s, .error (migration_database_failed none none))

/-- The full rbatis driver, parametrised by the statement-failure
oracle. -/
def rbatisDriver (execFails : List Nat → Bool) : Driver RbState where
  prepare := rbPrepare
  highestVersion := rbHighestVersion
  beginVersion := rbBeginVersion
  finishVersion := rbFinishVersion
  beginTransaction := rbBeginTransaction
  executeChangelogFile := rbExecuteChangelogFile execFails
  commitTransaction := rbCommitTransaction
  rollbackTransaction := rbRollbackTransaction

/-! ## Helper lemmas -/

/-- Statement emission yields nothing when the raw buffer is empty,
not valid UTF-8, or whitespace-only after decoding. -/
theorem emitStatement_eq_none (stmt ann : List Nat)
    (h : stmt = [] ∨ utf8Decode stmt = none ∨
      (∀ cps, utf8Decode stmt = some cps → trimWs cps = [])) :
    emitStatement stmt ann = none := by
  rcases h with h | h | h
  · simp [emitStatement, h]
  · cases hl : stmt.length with
    | zero => simp [emitStatement, hl]
    | succ n => simp [emitStatement, hl, h]
  · cases hd : utf8Decode stmt with
    | none =>
      cases hl : stmt.length with
      | zero => simp [emitStatement, hl]
      | succ n => simp [emitStatement, hl, hd]
    | some cps =>
      cases hl : stmt.length with
      | zero => simp [emitStatement, hl]
      | succ n => simp [emitStatement, hl, hd, h cps hd]

/-- Membership is preserved by `insertByVersion`. -/
theorem mem_insertByVersion (x a : ChangelogFile) (l : List ChangelogFile) :
    a ∈ insertByVersion x l ↔ a = x ∨ a ∈ l := by
  induction l with
  | nil => simp [insertByVersion]
  | cons y ys ih =>
    by_cases hc : bytesCmp x.version y.version = .gt
    · simp only [insertByVersion, if_pos hc, List.mem_cons, ih]
      tauto
    · simp only [insertByVersion, if_neg hc, List.mem_cons]

/-- Membership is preserved by `sortByVersion`. -/
theorem mem_sortByVersion (a : ChangelogFile) (l : List ChangelogFile) :
    a ∈ sortByVersion l ↔ a ∈ l := by
  induction l with
  | nil => simp [sortByVersion]
  | cons x xs ih =>
    simp only [sortByVersion, mem_insertByVersion, List.mem_cons, ih]

/-- `migrateLoop` never reaches the version-parse panic when every
changelog in the list has a parsable version. -/
theorem migrateLoop_ne_panicked {σ : Type} (D : Driver σ)
    (l : List ChangelogFile) (hv : Option Nat) (s : σ)
    (h : ∀ cl ∈ l, (parseU32 cl.version).isSome) :
    migrateLoop D l hv s ≠ .panicked := by
  induction l generalizing hv s with
  | nil => simp [migrateLoop]
  | cons cl rest ih =>
    have hcl : (parseU32 cl.version).isSome := h cl (by simp)
    obtain ⟨v, hvp⟩ := Option.isSome_iff_exists.mp hcl
    have hrest : ∀ c ∈ rest, (parseU32 c.version).isSome :=
      fun c hc => h c (by simp [hc])
    simp only [migrateLoop, hvp]
    split
    · simp
    · split
      · simp
      · split
        · split
          · simp
          · split
            · simp
            · exact ih (some v) _ hrest
        · simp

/-! ## Claim C4 -/

/-- C4: the claim states that reading a quote byte `q` in `Normal`
enters `Quoted(q)` and that the region is closed exactly by the next
unescaped `q` — in particular that a double-quoted region is not closed
by a single quote.  The code instead stores `SINGLE_QUOTE1` for all
three quote bytes: opening with a double quote (byte 34) or a backtick
(byte 96) yields `Quoted(39)`, and consequently the input
`" a ' b ; c` (bytes 34 97 39 98 59 99) has its double-quoted region
closed by the single quote, after which the semicolon terminates the
statement — the claim predicts a single statement covering the whole
input. -/
theorem c4_all_quotes_open_single_quote_region :
    processByte .Normal [] [] DOUBLE_QUOTE
      = (false, .Quoted SINGLE_QUOTE1, [DOUBLE_QUOTE], []) ∧
    processByte .Normal [] [] SINGLE_QUOTE2
      = (false, .Quoted SINGLE_QUOTE1, [SINGLE_QUOTE2], []) ∧
    statements [34, 97, 39, 98, 59, 99] = [⟨none, [34, 97, 39, 98]⟩] := by
  decide

/-! ## Claim C5 -/

/-- C5: the claim states that in `Escaped(q)` every next byte —
including a semicolon — is emitted literally and the state returns to
`Quoted(q)`, so a backslash-escaped semicolon inside a quoted region
never terminates a statement.  In the code the semicolon arm handles
only `Quoted` and `Comment` specially and its catch-all `break` also
fires in `Escaped`: on the input `' a \ ; b ' ;` (bytes 39 97 92 59 98
39 59) the escaped semicolon terminates the first statement, yielding
the two statements `'a\` and `';` instead of the single statement
`'a\;b'` the claim predicts. -/
theorem c5_escaped_semicolon_terminates_statement :
    processByte (.Escaped SINGLE_QUOTE1) [39, 97, 92] [] SEMICOLON
      = (true, .Escaped SINGLE_QUOTE1, [39, 97, 92], []) ∧
    statements [39, 97, 92, 59, 98, 39, 59]
      = [⟨none, [39, 97, 92]⟩, ⟨none, [39, 59]⟩] := by
  decide

/-! ## Claim C6 -/

/-- C6: the claim states that when a provisional lone minus is flushed
from the comment buffer, both the minus and the arriving byte are
preserved, so `SELECT a-b;` yields `SELECT a-b`.  The comment-flush
branch appends the buffered minus but never pushes the arriving byte,
so the byte after a lone minus is dropped: `SELECT a-b;` yields
`SELECT a-` (the flush step on byte `b` = 98 keeps the buffer
unchanged except for the minus). -/
theorem c6_lone_minus_flush_drops_next_byte :
    statements (strCodes "SELECT a-b;") = [⟨none, strCodes "SELECT a-"⟩] ∧
    processByte (.Comment .Normal [MINUS]) (strCodes "SELECT a") [] 98
      = (false, .Normal, strCodes "SELECT a" ++ [MINUS], []) := by
  decide

/-! ## Claim C10 -/

/-- C10: whenever the raw statement buffer collected before the next
top-level semicolon (or end of input) is empty, whitespace-only after
UTF-8 decoding, or not valid UTF-8, `SqlStatementIterator::next`
returns `None`, ending iteration — so later statements are silently
dropped, as on the input `; SELECT 1;` where no statement at all is
yielded even though `SELECT 1` follows the empty first segment. -/
theorem c10_empty_segment_ends_iteration :
    (∀ it : SqlStatementIterator,
      ((nextRaw it).1 = [] ∨ utf8Decode (nextRaw it).1 = none ∨
        (∀ cps, utf8Decode (nextRaw it).1 = some cps → trimWs cps = [])) →
      (nextStatement it).1 = none) ∧
    statements (strCodes "; SELECT 1;") = [] := by
  constructor
  · intro it h
    rcases hr : nextRaw it with ⟨stmt, ann, st2, rest⟩
    rw [hr] at h
    simp only [nextStatement, hr]
    exact emitStatement_eq_none stmt ann h
  · decide

/-- Witness for C10: the first segment of `; SELECT 1;` is empty, and
`next` on the corresponding iterator returns `None`. -/
theorem c10_empty_segment_ends_iteration_witness :
    (nextRaw ⟨strCodes "; SELECT 1;", .Normal⟩).1 = [] ∧
    (nextStatement ⟨strCodes "; SELECT 1;", .Normal⟩).1 = none :=
  ⟨by decide,
   c10_empty_segment_ends_iteration.1 ⟨strCodes "; SELECT 1;", .Normal⟩
     (Or.inl (by decide))⟩

/-- Decidable equality for `Except`, needed to evaluate driver results
in the concrete theorems. -/
instance {e a : Type} [DecidableEq e] [DecidableEq a] :
    DecidableEq (Except e a) := fun x y =>
  match x, y with
  | .ok u, .ok w =>
    if h : u = w then isTrue (by rw [h]) else isFalse (by simp [h])
  | .error u, .error w =>
    if h : u = w then isTrue (by rw [h]) else isFalse (by simp [h])
  | .ok _, .error _ => isFalse (by simp)
  | .error _, .ok _ => isFalse (by simp)

/-! ## Claim C3 -/

/-- Content of the S4-style changelog used against claim C3: an
annotated failing statement followed by an ordinary one. -/
def c3content : List Nat :=
  strCodes "--! may_fail: true\nDROP TABLE missing;\nCREATE TABLE ok(id INT);"

/-- Failure oracle for C3: exactly the first statement fails. -/
def c3fails (t : List Nat) : Bool := t = strCodes "DROP TABLE missing"

/-- C3 counterexample: the first statement of the changelog carries
`may_fail = Some(true)` and fails, yet `execute_changelog_file` does
not continue: it returns the error and the second statement is never
submitted (the execution log holds only the first statement), so the
changelog cannot succeed.  The rbatis executor never consults the
annotation. -/
theorem c3_may_fail_is_ignored_counterexample :
    statements c3content
      = [⟨some ⟨some true⟩, strCodes "DROP TABLE missing"⟩,
         ⟨none, strCodes "CREATE TABLE ok(id INT)"⟩] ∧
    rbExecuteChangelogFile c3fails ⟨strCodes "3", c3content⟩ ⟨[], true, []⟩
      = (⟨[], true, [strCodes "DROP TABLE missing"]⟩,
         .error (migration_versioning_failed (some 1))) := by
  decide

/-- C3 amended: in `execute_changelog_file` the statement annotations
are ignored entirely; whenever any statement fails — with or without a
`may_fail = true` annotation — the iteration aborts at that statement
and the error is returned, with exactly the statements up to and
including the failing one submitted. -/
theorem c3_amended_any_failure_aborts (execFails : List Nat → Bool)
    (pre : List SqlStatement) (f : SqlStatement) (post : List SqlStatement)
    (log : List (List Nat))
    (hpre : ∀ s ∈ pre, execFails s.statement = false)
    (hf : execFails f.statement = true) :
    execStatements execFails (pre ++ f :: post) log
      = (log ++ pre.map (fun s => s.statement) ++ [f.statement],
         .error (migration_versioning_failed (some 1))) := by
  induction pre generalizing log with
  | nil => simp [execStatements, hf]
  | cons a tl ih =>
    have ha : execFails a.statement = false := hpre a (by simp)
    have htl : ∀ s ∈ tl, execFails s.statement = false :=
      fun s hs => hpre s (by simp [hs])
    simp only [List.cons_append, execStatements, ha, Bool.false_eq_true,
      if_false, List.map_cons, List.append_eq]
    rw [ih (log ++ [a.statement]) htl]
    simp

/-- Witness for C3 amended: a changelog of one succeeding and one
annotated failing statement aborts at the failing statement. -/
theorem c3_amended_any_failure_aborts_witness :
    ((∀ s ∈ [(⟨none, strCodes "A"⟩ : SqlStatement)],
        c3fails s.statement = false) ∧
      c3fails (strCodes "DROP TABLE missing") = true) ∧
    execStatements c3fails
        [⟨none, strCodes "A"⟩,
         ⟨some ⟨some true⟩, strCodes "DROP TABLE missing"⟩] []
      = ([strCodes "A", strCodes "DROP TABLE missing"],
         .error (migration_versioning_failed (some 1))) :=
  ⟨⟨by decide, by decide⟩,
   c3_amended_any_failure_aborts c3fails [⟨none, strCodes "A"⟩]
     ⟨some ⟨some true⟩, strCodes "DROP TABLE missing"⟩ [] []
     (by decide) (by decide)⟩

/-! ## Claim C8 -/

/-- C8: when `execute_changelog_file` fails for a changelog whose
`begin_version` and `begin_transaction` succeeded, `migrate`'s loop
invokes `rollback_transaction` on the post-execution state and returns
the original execution error unchanged — whatever `Result` the rollback
itself produces, since only the rollback's state component appears in
the outcome. -/
theorem c8_rollback_error_swallowed {σ : Type} (D : Driver σ)
    (cl : ChangelogFile) (rest : List ChangelogFile) (hv : Option Nat)
    (s s1 s2 s3 : σ) (v : Nat) (e : MigrationsError)
    (hparse : parseU32 cl.version = some v)
    (hbv : D.beginVersion cl s = (s1, .ok ()))
    (hbt : D.beginTransaction s1 = (s2, .ok ()))
    (hex : D.executeChangelogFile cl s2 = (s3, .error e)) :
    migrateLoop D (cl :: rest) hv s
      = .error (D.rollbackTransaction s3).1 e := by
  simp [migrateLoop, hparse, hbv, hbt, hex]

/-- Driver used to witness C8: execution fails with a step error while
the rollback itself also fails (with a different error); the state is a
call counter. -/
def c8driver : Driver Nat where
  prepare := fun s => (s, .ok ())
  highestVersion := fun s => (s, .ok none)
  beginVersion := fun _ s => (s + 1, .ok ())
  finishVersion := fun _ s => (s, .ok ())
  beginTransaction := fun s => (s + 1, .ok ())
  executeChangelogFile := fun _ s =>
    (s + 1, .error (migration_database_step_failed none (some 7)))
  commitTransaction := fun s => (s, .ok ())
  rollbackTransaction := fun s =>
    (s + 1, .error (migration_database_failed none (some 9)))

/-- Witness for C8: with a failing rollback the loop still returns the
original execution error, and the state shows the rollback ran. -/
theorem c8_rollback_error_swallowed_witness :
    (parseU32 (strCodes "1") = some 1 ∧
      c8driver.beginVersion ⟨strCodes "1", []⟩ 0 = (1, .ok ()) ∧
      c8driver.beginTransaction 1 = (2, .ok ()) ∧
      c8driver.executeChangelogFile ⟨strCodes "1", []⟩ 2
        = (3, .error (migration_database_step_failed none (some 7)))) ∧
    migrateLoop c8driver [⟨strCodes "1", []⟩] none 0
      = .error (c8driver.rollbackTransaction 3).1
          (migration_database_step_failed none (some 7)) :=
  ⟨⟨by decide, by decide, by decide, by decide⟩,
   c8_rollback_error_swallowed c8driver ⟨strCodes "1", []⟩ [] none 0 1 2 3 1
     (migration_database_step_failed none (some 7))
     (by decide) (by decide) (by decide) (by decide)⟩

/-! ## Claim C9 -/

/-- C9: `migrate` is panic-free exactly under the precondition that
every catalog version string parses as a `u32`.  First conjunct: for
any driver, when every version parses, `migrate` never panics.  Second
conjunct: over the rbatis driver (whose `prepare` and
`highest_version` succeed), a catalog containing any unparsable
version string — such as the `V1` that `ChangelogFile::from_path`
extracts — makes `migrate` hit the `expect("Version must be an
integer")` panic instead of returning a `MigrationsError`. -/
theorem c9_panic_free_iff_versions_parse :
    (∀ (σ : Type) (D : Driver σ) (catalog : List ChangelogFile) (s : σ),
      (∀ cl ∈ catalog, (parseU32 cl.version).isSome) →
      migrate D catalog s ≠ .panicked) ∧
    (∀ (execFails : List Nat → Bool) (catalog : List ChangelogFile)
        (s : RbState),
      (∃ cl ∈ catalog, parseU32 cl.version = none) →
      migrate (rbatisDriver execFails) catalog s = .panicked) := by
  constructor
  · intro σ D catalog s h
    simp only [migrate]
    split
    · simp
    · split
      · simp
      · have hall : catalog.all (fun m => (parseU32 m.version).isSome) = true :=
          List.all_eq_true.mpr (fun m hm => h m hm)
        rw [if_pos hall]
        apply migrateLoop_ne_panicked
        intro cl hcl
        exact h cl (List.mem_filter.mp ((mem_sortByVersion cl _).mp hcl)).1
  · intro execFails catalog s hex
    obtain ⟨cl, hmem, hnone⟩ := hex
    have hall : ¬ (catalog.all (fun m => (parseU32 m.version).isSome) = true) := by
      intro hall
      have := List.all_eq_true.mp hall cl hmem
      rw [hnone] at this
      simp at this
    simp only [migrate, rbatisDriver, rbPrepare, rbHighestVersion]
    rw [if_neg hall]

/-- Witness for C9: both conjuncts at concrete inputs — a one-entry
catalog with version `1` never panics, and the catalog with version
`V1` panics. -/
theorem c9_panic_free_iff_versions_parse_witness :
    ((∀ cl ∈ [(⟨strCodes "1", strCodes "X;"⟩ : ChangelogFile)],
        (parseU32 cl.version).isSome) ∧
      (∃ cl ∈ [(⟨strCodes "V1", strCodes "X;"⟩ : ChangelogFile)],
        parseU32 cl.version = none)) ∧
    migrate (rbatisDriver (fun _ => false))
        [⟨strCodes "1", strCodes "X;"⟩] (⟨[], false, []⟩ : RbState)
      ≠ .panicked ∧
    migrate (rbatisDriver (fun _ => false))
        [⟨strCodes "V1", strCodes "X;"⟩] (⟨[], false, []⟩ : RbState)
      = .panicked :=
  ⟨⟨by decide, ⟨⟨strCodes "V1", strCodes "X;"⟩, by decide, by decide⟩⟩,
   c9_panic_free_iff_versions_parse.1 RbState
     (rbatisDriver (fun _ => false)) [⟨strCodes "1", strCodes "X;"⟩]
     ⟨[], false, []⟩ (by decide),
   c9_panic_free_iff_versions_parse.2 (fun _ => false)
     [⟨strCodes "V1", strCodes "X;"⟩] ⟨[], false, []⟩
     ⟨⟨strCodes "V1", strCodes "X;"⟩, by decide, by decide⟩⟩

/-! ## Claim C1 -/

/-- Catalog used against claim C1: two pending versions whose numeric
and lexicographic orders disagree. -/
def c1catalog : List ChangelogFile :=
  [⟨strCodes "2", strCodes "CREATE TABLE a;"⟩,
   ⟨strCodes "10", strCodes "CREATE TABLE b;"⟩]

/-- C1: the claim states pending changelogs run in ascending numeric
version order (2 before 10).  The code sorts with the *string*
comparator `a.version().cmp(b.version())`, under which `10` precedes
`2`: on an empty database, version 10's statement is submitted before
version 2's (see the execution log), and the returned high-water mark
is `Some 2` — the numeric version of the lexicographically last
changelog — although version 10 is deployed. -/
theorem c1_execution_order_is_lexicographic :
    migrate (rbatisDriver (fun _ => false)) c1catalog ⟨[], false, []⟩
      = .ok ⟨[(10, .Deployed), (2, .Deployed)], false,
             [strCodes "CREATE TABLE b", strCodes "CREATE TABLE a"]⟩
          (some 2) ∧
    sortByVersion c1catalog
      = [(⟨strCodes "10", strCodes "CREATE TABLE b;"⟩ : ChangelogFile),
         ⟨strCodes "2", strCodes "CREATE TABLE a;"⟩] := by
  decide

/-! ## Claim C2 -/

/-- Catalog for the S5 scenario of claim C2. -/
def c2catalog : List ChangelogFile :=
  [⟨strCodes "1", strCodes "SQL one;"⟩, ⟨strCodes "2", strCodes "SQL two;"⟩,
   ⟨strCodes "3", strCodes "SQL three;"⟩, ⟨strCodes "4", strCodes "SQL four;"⟩]

/-- Failure oracle for C2: version 3's statement is rejected. -/
def c2fails (t : List Nat) : Bool := t = strCodes "SQL three"

/-- C2: in scenario S5 (deployed 1 and 2, catalog 1-4, version 3's SQL
invalid) the claim expects a `MigrationDatabaseStepFailed` error whose
`last_successful_version` is `Some 2`.  The rbatis executor wraps the
failed statement as `migration_versioning_failed`, whose constructor
fixes `last_successful_version` to `None`, and `migrate` returns that
error unchanged: the returned error has kind
`MigrationVersioningFailed` (never `MigrationDatabaseStepFailed`) and
carries no last successful version. -/
theorem c2_step_failure_error_value :
    (migrate (rbatisDriver c2fails) c2catalog
        ⟨[(1, .Deployed), (2, .Deployed)], false, []⟩
      = .error ⟨[(1, .Deployed), (2, .Deployed), (3, .InProgress)], false,
                [strCodes "SQL three"]⟩
          (migration_versioning_failed (some 1)) ∧
      (migration_versioning_failed (some 1)).last_successful_version
        = none) ∧
    ∀ c : Option Nat, (migration_versioning_failed (some 1)).kind
      ≠ .MigrationDatabaseStepFailed c := by
  refine ⟨by decide, ?_⟩
  intro c
  simp [migration_versioning_failed]

/-! ## Claim C7 -/

/-- Catalog used against claim C7 (same shape as C1's, distinct
contents). -/
def c7catalog : List ChangelogFile :=
  [⟨strCodes "2", strCodes "ALPHA;"⟩, ⟨strCodes "10", strCodes "BETA;"⟩]

/-- Database state after the first successful `migrate` over
`c7catalog`. -/
def c7mid : RbState :=
  ⟨[(10, .Deployed), (2, .Deployed)], false,
   [strCodes "BETA", strCodes "ALPHA"]⟩

/-- C7: the claim states that after a first call returning `Ok(h)` an
immediate second call executes nothing and returns the same `Ok(h)`.
On the catalog with versions 2 and 10 the first call returns
`Ok(Some 2)`; the second call indeed executes zero statements (the
state, including the execution log, is unchanged) but returns
`Ok(Some 10)` — the numeric maximum the state manager reports — which
differs from the first call's high-water mark. -/
theorem c7_second_call_returns_different_mark :
    migrate (rbatisDriver (fun _ => false)) c7catalog ⟨[], false, []⟩
      = .ok c7mid (some 2) ∧
    migrate (rbatisDriver (fun _ => false)) c7catalog c7mid
      = .ok c7mid (some 10) ∧
    (some 10 : Option Nat) ≠ some 2 := by
  decide

end Flyway
